import Mathlib

/-!
Shallow embedding of `daily-market-bot.py` (daily market summary and
S&P 500 heatmap capture bot) together with proofs about the claims of
its specification.

The data pipeline (sheet parsing, message formatting) is embedded as pure
functions on strings and lists.  The capture pipeline (navigation with
retries, banner dismissal, the element-selector fallback chain, artifact
persistence and browser teardown) is embedded by abstracting each external
effect (a goto call, a network-idle wait, a selector query, a screenshot
write, a file copy) into a success/failure oracle, and computing the
observable trace of the run (how many navigation calls were made, which
element was captured, whether the browser was closed, whether an
exception escaped) as a pure function of that oracle.
-/

/-! ### Python string primitives used by the formatter -/

/-- The whitespace class stripped by the Python `str.strip()` method. -/
def pySpace (c : Char) : Bool :=
  c = ' ' || c = '\t' || c = '\n' || c = '\x0d' || c = '\x0b' || c = '\x0c'

/-- `str.strip()` on a character list: drop the leading `pySpace` run and the
trailing `pySpace` run. -/
def stripList (l : List Char) : List Char :=
  (((l.dropWhile pySpace).reverse.dropWhile pySpace)).reverse

/-- Embedding of the Python expression `s.strip()`. -/
def pyStrip (s : String) : String :=
  ⟨stripList s.data⟩

/-! ### The message formatter (`format_slack_message` and its inner `fmt_pct`) -/

/-- Embedding of the inner helper of the formatter:
`v = str(val).strip(); return v if "%" in v else v + "%"`
(for the single-character needle, the Python substring test is character
membership). -/
def fmt_pct (val : String) : String :=
  let v := pyStrip val
  if v.data.contains '%' then v else v ++ "%"

/-- Modelled from the spec: the value handling of the USD/CAD line of the
formatter.  In the source file this expression is the corruption point: the
file stores the line as
`d[ usdcad ] if d[ usdcad ].startswith(<lost>) else <lost> + d[ usdcad ]`
with the literal between the quotes destroyed by the duplication corruption,
so the prefix character is not recoverable from src.  The spec states the
currency-pair field "is passed through unmodified", so the model passes the
value through. -/
def usdcad_field (v : String) : String := v

/-- The nine-field record returned by `read_google_sheet` (a Python dict with
fixed keys; each value is the literal cell text). -/
structure MarketSnapshot where
  date   : String
  sp500  : String
  nasdaq : String
  tsx    : String
  mags   : String
  btc    : String
  eth    : String
  usdcad : String
  gold   : String
deriving Repr, DecidableEq

/-- The `lines` list built by `format_slack_message`, in source order. -/
def format_lines (d : MarketSnapshot) : List String :=
  [ "*Date: " ++ d.date ++ " Market*",
    "───────────────────────────",
    ":us: S&P 500: " ++ fmt_pct d.sp500,
    ":us: Nasdaq: " ++ fmt_pct d.nasdaq,
    ":flag-ca: TSX Comp: " ++ fmt_pct d.tsx,
    ":seven: Magnificent7: " ++ fmt_pct d.mags,
    ":bitcoin: Bitcoin: " ++ fmt_pct d.btc,
    ":ethereum: Ethereum: " ++ fmt_pct d.eth,
    ":chart_with_upwards_trend: USD/CAD: " ++ usdcad_field d.usdcad,
    ":gold_ingot: Gold: " ++ fmt_pct d.gold ]

/-- Embedding of `format_slack_message`: the `lines` list joined by newlines
(`"\n".join(lines)`). -/
def format_slack_message (d : MarketSnapshot) : String :=
  String.intercalate "\n" (format_lines d)

/-! ### The sheet reader (`read_google_sheet`) -/

/-- The exceptions `read_google_sheet` can raise while consuming the parsed
CSV rows: `next(reader)` on an exhausted iterator, or the explicit
`ValueError` for a short data row (its payload records the offending
length and row). -/
inductive SheetErr where
  | stopIter : SheetErr
  | valueErr (got : Nat) (row : List String) : SheetErr
deriving Repr, DecidableEq

/-- Embedding of `read_google_sheet`, applied to the parsed CSV rows (the
HTTP fetch and `csv.reader` are the input boundary).  It consumes the header
row and the data row with `next`, raises `ValueError` when the data row has
fewer than nine columns, and otherwise builds the nine-key dict from
columns 0 through 8. -/
def read_google_sheet (rows : List (List String)) : Except SheetErr MarketSnapshot :=
  match rows with
  | [] => .error .stopIter
  | _header :: rest =>
    match rest with
    | [] => .error .stopIter
    | row :: _ =>
      if row.length < 9 then
        .error (.valueErr row.length row)
      else
        .ok { date := row.getD 0 "", sp500 := row.getD 1 "", nasdaq := row.getD 2 "",
              tsx := row.getD 3 "", mags := row.getD 4 "", btc := row.getD 5 "",
              eth := row.getD 6 "", usdcad := row.getD 7 "", gold := row.getD 8 "" }

/-! ### The capture pipeline

Every external effect of `capture_heatmap` and `goto_with_retries` is
abstracted into an oracle telling whether that call raises; the pipeline is
then a pure function of the oracle producing the observable outcome of the
run.  Timeout values only shape when a call raises, so they are absorbed
into the oracle verdicts. -/

/-- Success/failure oracle for the external effects of one capture run.
Goto attempts are numbered from 1 as in the source loop; map selectors and
banner selectors are numbered 0 to 3 in list order. -/
structure Oracle where
  /-- attempt `i` of `page.goto(url, wait_until="domcontentloaded")` completes. -/
  gotoOk : Nat → Bool
  /-- the `wait_for_load_state("networkidle")` wait after goto `i` completes
  within its timeout. -/
  idleOk : Nat → Bool
  /-- the final `page.goto(url, wait_until="load")` fallback completes. -/
  fallbackGotoOk : Bool
  /-- the cookie-banner click on banner selector `j` succeeds. -/
  clickOk : Nat → Bool
  /-- `page.query_selector` on map selector `j`: `none` means the call raises,
  `some b` means it returns an element (`true`) or `None` (`false`). -/
  query : Nat → Option Bool
  /-- the element screenshot for the element of map selector `j` completes
  (writing the dated artifact). -/
  elemShotOk : Nat → Bool
  /-- the full-page screenshot completes (writing the dated artifact). -/
  fullShotOk : Bool
  /-- `shutil.copyfile` of the dated artifact to the latest path completes. -/
  copyOk : Bool

/-- One body of the retry loop in `goto_with_retries` runs to its
`return True` exactly when both its goto and its network-idle wait complete
without raising. -/
def attemptOk (o : Oracle) (i : Nat) : Bool :=
  o.gotoOk i && o.idleOk i

/-- The retry loop of `goto_with_retries`, by remaining iterations: `i` is the
current 1-based attempt index.  Returns the flag the function returns and the
number of goto calls made.  Each iteration issues exactly one goto call; an
exception from the goto or from the idle wait is caught, the backoff sleep
runs, and the loop continues. -/
def gotoAttempts (o : Oracle) : Nat → Nat → Bool × Nat
  | _, 0 => (false, 0)
  | i, rem + 1 =>
    if attemptOk o i then (true, 1)
    else
      let r := gotoAttempts o (i + 1) rem
      (r.1, r.2 + 1)

/-- Embedding of `goto_with_retries(page, url, attempts)`: the returned
success flag together with the number of goto calls made. -/
def goto_with_retries (o : Oracle) (attempts : Nat) : Bool × Nat :=
  gotoAttempts o 1 attempts

/-- The cookie-banner dismissal loop: four selectors tried in order, a
bounded-timeout click on each; the first successful click breaks the loop and
every failure is swallowed.  Returns which banner selector was clicked, if
any.  No exception escapes this loop. -/
def banner_dismiss (o : Oracle) : List Nat → Option Nat
  | [] => none
  | j :: rest => if o.clickOk j then some j else banner_dismiss o rest

/-- Observable result of the map-selector fallback loop. -/
structure SelScan where
  /-- the `saved` flag after the loop. -/
  saved : Bool
  /-- index of the selector whose element was screenshotted, if any. -/
  element : Option Nat
  /-- how many element-screenshot calls raised (each is swallowed by the
  bare `except` of the loop body). -/
  shotsRaised : Nat
deriving Repr, DecidableEq

/-- The map-selector fallback loop of `capture_heatmap`: for each selector,
query it (a raising query is swallowed); on a found element take its
screenshot, set `saved` and break; a raising element screenshot is swallowed
and the loop continues with the next selector. -/
def selector_scan (o : Oracle) : List Nat → SelScan
  | [] => ⟨false, none, 0⟩
  | j :: rest =>
    match o.query j with
    | none => selector_scan o rest
    | some false => selector_scan o rest
    | some true =>
      if o.elemShotOk j then ⟨true, some j, 0⟩
      else
        let s := selector_scan o rest
        ⟨s.saved, s.element, s.shotsRaised + 1⟩

/-- The observable outcome of one `capture_heatmap` run. -/
structure CaptureOutcome where
  /-- the coroutine returned without an exception escaping. -/
  ok : Bool
  /-- number of goto calls made by `goto_with_retries`. -/
  gotoCalls : Nat
  /-- number of final-fallback goto calls made by the caller. -/
  fallbackCalls : Nat
  /-- which banner selector was clicked, if any. -/
  bannerClicked : Option Nat
  /-- which map selector's element was screenshotted, if any. -/
  capturedElement : Option Nat
  /-- how many element-screenshot calls raised and were swallowed. -/
  elemShotsRaised : Nat
  /-- the full-page screenshot call was issued. -/
  fullPageUsed : Bool
  /-- the dated artifact was written. -/
  datedWritten : Bool
  /-- the latest copy was written. -/
  latestCopied : Bool
  /-- `await browser.close()` (the last statement of the body) was reached. -/
  browserClosed : Bool
deriving Repr, DecidableEq

/-- Embedding of `capture_heatmap`.  Browser launch, context and page
creation and the init script are assumed to succeed (they have no failure
handling in the source; a failure there would abort before anything
observable to the claims).  The body runs: retry navigation; on failure one
unguarded fallback goto; banner dismissal; the selector fallback loop; the
full-page screenshot when nothing was saved; the guarded latest copy; then
`browser.close()`.  An exception escaping any unguarded await skips every
later statement, `browser.close()` included. -/
def capture_heatmap (o : Oracle) : CaptureOutcome :=
  let nav := goto_with_retries o 3
  let fallbackCalls := if nav.1 then 0 else 1
  if !nav.1 && !o.fallbackGotoOk then
    -- the final fallback goto raised: the exception escapes the function
    { ok := false, gotoCalls := nav.2, fallbackCalls := fallbackCalls,
      bannerClicked := none, capturedElement := none, elemShotsRaised := 0,
      fullPageUsed := false, datedWritten := false, latestCopied := false,
      browserClosed := false }
  else
    let banner := banner_dismiss o [0, 1, 2, 3]
    let s := selector_scan o [0, 1, 2, 3]
    if !s.saved && !o.fullShotOk then
      -- the full-page screenshot raised: the exception escapes the function
      { ok := false, gotoCalls := nav.2, fallbackCalls := fallbackCalls,
        bannerClicked := banner, capturedElement := none,
        elemShotsRaised := s.shotsRaised, fullPageUsed := true,
        datedWritten := false, latestCopied := false, browserClosed := false }
    else
      { ok := true, gotoCalls := nav.2, fallbackCalls := fallbackCalls,
        bannerClicked := banner, capturedElement := s.element,
        elemShotsRaised := s.shotsRaised, fullPageUsed := !s.saved,
        datedWritten := true, latestCopied := o.copyOk,
        browserClosed := true }

/-! ### The orchestrator (`main`) -/

/-- The observable trace of one `main` run. -/
structure RunTrace where
  /-- `format_slack_message` was invoked. -/
  formatted : Bool
  /-- `capture_heatmap` was invoked. -/
  captured : Bool
  /-- the run completed without an exception (exit status zero). -/
  ok : Bool
deriving Repr, DecidableEq

/-- Embedding of `main` (the name itself is reserved by Lean): read the
sheet, format the message, run the capture, write the output block.  An
exception from `read_google_sheet` aborts before any formatting or capture
work; an exception escaping `capture_heatmap` aborts after the
formatting. -/
def main_run (rows : List (List String)) (o : Oracle) : RunTrace :=
  match read_google_sheet rows with
  | .error _ => { formatted := false, captured := false, ok := false }
  | .ok d =>
    let _msg := format_slack_message d
    let c := capture_heatmap o
    { formatted := true, captured := true, ok := c.ok }

/-! ### Concrete sample data and oracles used by witnesses and
counterexamples -/

/-- The data row of the end-to-end scenario of the spec. -/
def rowC7 : List String :=
  ["2024-06-01", "+0.5", "+1.2", "-0.3", "+2.0", "+3.1", "-1.0", "1.36", "+0.8"]

/-- The snapshot parsed from `rowC7`. -/
def snapC7 : MarketSnapshot :=
  { date := "2024-06-01", sp500 := "+0.5", nasdaq := "+1.2", tsx := "-0.3",
    mags := "+2.0", btc := "+3.1", eth := "-1.0", usdcad := "1.36", gold := "+0.8" }

/-- A snapshot whose S&P value already contains a percent sign followed by
further text. -/
def snapPct : MarketSnapshot :=
  { date := "d", sp500 := "%a", nasdaq := "1", tsx := "1", mags := "1",
    btc := "1", eth := "1", usdcad := "1", gold := "1" }

/-- Oracle where every external call raises. -/
def oracleAllFail : Oracle :=
  { gotoOk := fun _ => false, idleOk := fun _ => false, fallbackGotoOk := false,
    clickOk := fun _ => false, query := fun _ => some false,
    elemShotOk := fun _ => false, fullShotOk := false, copyOk := false }

/-- Oracle where every goto reaches DOM-ready but every network-idle wait
times out; everything after navigation succeeds. -/
def oracleIdleTimeout : Oracle :=
  { gotoOk := fun _ => true, idleOk := fun _ => false, fallbackGotoOk := true,
    clickOk := fun _ => false, query := fun _ => some false,
    elemShotOk := fun _ => true, fullShotOk := true, copyOk := true }

/-- Oracle whose first navigation attempt raises and whose second succeeds. -/
def oracleSecondTry : Oracle :=
  { gotoOk := fun i => i != 1, idleOk := fun _ => true, fallbackGotoOk := true,
    clickOk := fun _ => false, query := fun _ => some false,
    elemShotOk := fun _ => true, fullShotOk := true, copyOk := true }

/-- Oracle where every retry attempt raises but the final fallback goto and
everything afterwards succeed. -/
def oracleFallbackNav : Oracle :=
  { gotoOk := fun _ => false, idleOk := fun _ => true, fallbackGotoOk := true,
    clickOk := fun _ => false, query := fun _ => some false,
    elemShotOk := fun _ => true, fullShotOk := true, copyOk := true }

/-- Oracle where the first map selector finds an element whose screenshot
raises, no other selector matches, and the full-page screenshot succeeds. -/
def oracleElemShotRaises : Oracle :=
  { gotoOk := fun _ => true, idleOk := fun _ => true, fallbackGotoOk := true,
    clickOk := fun _ => false, query := fun j => some (j == 0),
    elemShotOk := fun _ => false, fullShotOk := true, copyOk := true }

/-- Oracle where only the third map selector (index 2) matches and its
screenshot succeeds. -/
def oracleThirdSelector : Oracle :=
  { gotoOk := fun _ => true, idleOk := fun _ => true, fallbackGotoOk := true,
    clickOk := fun _ => false, query := fun j => some (j == 2),
    elemShotOk := fun _ => true, fullShotOk := true, copyOk := true }

/-- Oracle where no map selector matches and the full-page screenshot and
latest copy succeed. -/
def oracleNoMatch : Oracle :=
  { gotoOk := fun _ => true, idleOk := fun _ => true, fallbackGotoOk := true,
    clickOk := fun _ => false, query := fun _ => some false,
    elemShotOk := fun _ => true, fullShotOk := true, copyOk := true }

/-- Oracle where the capture succeeds but the latest copy raises. -/
def oracleCopyFails : Oracle :=
  { gotoOk := fun _ => true, idleOk := fun _ => true, fallbackGotoOk := true,
    clickOk := fun _ => false, query := fun _ => some false,
    elemShotOk := fun _ => true, fullShotOk := true, copyOk := false }

/-- Oracle where no selector matches and the full-page screenshot raises, so
the dated artifact is never written. -/
def oracleFullShotRaises : Oracle :=
  { gotoOk := fun _ => true, idleOk := fun _ => true, fallbackGotoOk := true,
    clickOk := fun _ => false, query := fun _ => some false,
    elemShotOk := fun _ => true, fullShotOk := false, copyOk := true }

/-! ### Lemmas about the Python string primitives -/

/-- The head surviving a `dropWhile` fails the predicate. -/
theorem dropWhile_head?_false (p : Char → Bool) :
    ∀ (l : List Char) (a : Char), (l.dropWhile p).head? = some a → p a = false := by
  intro l
  induction l with
  | nil => intro a h; simp at h
  | cons b t ih =>
    intro a h
    by_cases hb : p b = true
    · rw [List.dropWhile_cons_of_pos hb] at h
      exact ih a h
    · rw [List.dropWhile_cons_of_neg hb] at h
      simp only [List.head?_cons, Option.some.injEq] at h
      subst h
      simpa using hb

/-- The last character of a stripped list is not stripped whitespace. -/
theorem stripList_getLast?_false (l : List Char) (a : Char)
    (h : (stripList l).getLast? = some a) : pySpace a = false := by
  unfold stripList at h
  rw [List.getLast?_reverse] at h
  exact dropWhile_head?_false pySpace _ a h

/-- The first character of a stripped list is not stripped whitespace. -/
theorem stripList_head?_false (l : List Char) (a : Char)
    (h : (stripList l).head? = some a) : pySpace a = false := by
  unfold stripList at h
  rw [List.head?_reverse] at h
  obtain ⟨pre, hpre⟩ :=
    List.dropWhile_suffix (l := (l.dropWhile pySpace).reverse) pySpace
  have hne : ((l.dropWhile pySpace).reverse.dropWhile pySpace) ≠ [] := by
    intro hnil
    rw [hnil] at h
    simp at h
  have h2 : (pre ++ (l.dropWhile pySpace).reverse.dropWhile pySpace).getLast? = some a := by
    rw [List.getLast?_append_of_ne_nil pre hne]
    exact h
  rw [hpre, List.getLast?_reverse] at h2
  exact dropWhile_head?_false pySpace l a h2

/-- A list whose first and last characters are not stripped whitespace is a
fixed point of `stripList`. -/
theorem stripList_eq_self (l : List Char)
    (h1 : ∀ a, l.head? = some a → pySpace a = false)
    (h2 : ∀ a, l.getLast? = some a → pySpace a = false) :
    stripList l = l := by
  have hd : l.dropWhile pySpace = l := by
    cases l with
    | nil => rfl
    | cons a t =>
      have ha := h1 a rfl
      exact List.dropWhile_cons_of_neg (by simp [ha])
  have hr : l.reverse.dropWhile pySpace = l.reverse := by
    cases hrl : l.reverse with
    | nil => rfl
    | cons a t =>
      have ha : l.getLast? = some a := by
        rw [← List.head?_reverse, hrl]
        rfl
      have hpa := h2 a ha
      exact List.dropWhile_cons_of_neg (by simp [hpa])
  unfold stripList
  rw [hd, hr, List.reverse_reverse]

/-- Stripping is idempotent. -/
theorem stripList_idem (l : List Char) : stripList (stripList l) = stripList l :=
  stripList_eq_self _ (stripList_head?_false l) (stripList_getLast?_false l)

/-- Stripping only removes characters. -/
theorem stripList_sublist (l : List Char) : List.Sublist (stripList l) l := by
  unfold stripList
  have h1 := (List.dropWhile_sublist (l := (l.dropWhile pySpace).reverse) pySpace).reverse
  rw [List.reverse_reverse] at h1
  exact h1.trans (List.dropWhile_sublist pySpace)

/-- Membership is preserved from the stripped list to the original. -/
theorem mem_of_mem_stripList (l : List Char) (a : Char) (h : a ∈ stripList l) :
    a ∈ l :=
  (stripList_sublist l).mem h

/-- Appending a percent sign to a stripped list yields a stripped list. -/
theorem stripList_concat_pct (l : List Char) :
    stripList (stripList l ++ ['%']) = stripList l ++ ['%'] := by
  apply stripList_eq_self
  · intro a h
    cases hs : stripList l with
    | nil =>
      rw [hs] at h
      simp only [List.nil_append, List.head?_cons, Option.some.injEq] at h
      exact h ▸ rfl
    | cons b t =>
      rw [hs] at h
      simp only [List.cons_append, List.head?_cons, Option.some.injEq] at h
      exact h ▸ stripList_head?_false l b (by rw [hs]; rfl)
  · intro a h
    rw [List.getLast?_concat] at h
    simp only [Option.some.injEq] at h
    exact h ▸ rfl

/-! ### Lemmas about `fmt_pct` -/

/-- The stripped view of `pyStrip`. -/
theorem pyStrip_data (s : String) : (pyStrip s).data = stripList s.data := rfl

/-- A value without a percent sign is stripped and then suffixed with one. -/
theorem fmt_pct_of_no_pct (v : String) (h : v.data.contains '%' = false) :
    fmt_pct v = pyStrip v ++ "%" := by
  have hs : (pyStrip v).data.contains '%' = false := by
    cases hb : (pyStrip v).data.contains '%' with
    | false => rfl
    | true =>
      exfalso
      have hm : '%' ∈ (pyStrip v).data := List.elem_iff.mp hb
      have hm2 : '%' ∈ v.data := mem_of_mem_stripList v.data '%' hm
      have hc : v.data.contains '%' = true := List.elem_iff.mpr hm2
      rw [h] at hc
      cases hc
  have hneg : ¬ (pyStrip v).data.contains '%' = true := by
    rw [hs]
    exact Bool.false_ne_true
  simp only [fmt_pct]
  rw [if_neg hneg]

/-- The formatted value of a percent-free input ends in a percent sign. -/
theorem fmt_pct_getLast_pct (v : String) (h : v.data.contains '%' = false) :
    (fmt_pct v).data.getLast? = some '%' := by
  rw [fmt_pct_of_no_pct v h, String.data_append]
  exact List.getLast?_concat _

/-- The appended percent sign is a member of the result. -/
theorem pct_mem_append (s : String) : (s ++ "%").data.contains '%' = true := by
  rw [String.data_append]
  exact List.elem_iff.mpr (List.mem_append_right _ (List.mem_singleton.mpr rfl))

/-- Every formatted value contains a percent sign. -/
theorem fmt_pct_contains_pct (v : String) : (fmt_pct v).data.contains '%' = true := by
  by_cases h : (pyStrip v).data.contains '%' = true
  · simp only [fmt_pct]
    rw [if_pos h]
    exact h
  · simp only [fmt_pct]
    rw [if_neg h]
    exact pct_mem_append (pyStrip v)

/-- `fmt_pct` is idempotent. -/
theorem fmt_pct_idem (v : String) : fmt_pct (fmt_pct v) = fmt_pct v := by
  by_cases h : (pyStrip v).data.contains '%' = true
  · have h1 : fmt_pct v = pyStrip v := by
      simp only [fmt_pct]
      rw [if_pos h]
    have h2 : pyStrip (pyStrip v) = pyStrip v :=
      String.ext (stripList_idem v.data)
    rw [h1]
    simp only [fmt_pct, h2]
    rw [if_pos h]
  · have h1 : fmt_pct v = pyStrip v ++ "%" := by
      simp only [fmt_pct]
      rw [if_neg h]
    have hdata : (pyStrip (pyStrip v ++ "%")).data = (pyStrip v ++ "%").data := by
      rw [pyStrip_data, String.data_append, pyStrip_data]
      exact stripList_concat_pct v.data
    have h2 : pyStrip (pyStrip v ++ "%") = pyStrip v ++ "%" := String.ext hdata
    rw [h1]
    simp only [fmt_pct, h2]
    rw [if_pos (pct_mem_append (pyStrip v))]

/-! ### Lemmas about the navigation retry loop -/

/-- When every attempt in range fails, the loop exhausts all iterations and
reports failure with one goto call per iteration. -/
theorem gotoAttempts_all_fail (o : Oracle) :
    ∀ (rem i : Nat), (∀ j, i ≤ j → j < i + rem → attemptOk o j = false) →
      gotoAttempts o i rem = (false, rem) := by
  intro rem
  induction rem with
  | zero => intro i _; rfl
  | succ n ih =>
    intro i h
    have hi : attemptOk o i = false := h i (le_refl i) (by omega)
    have hr := ih (i + 1) (fun j hj1 hj2 => h j (by omega) (by omega))
    simp [gotoAttempts, hi, hr]

/-- When the first success is at absolute attempt index `K` within range, the
loop stops there, having made `K + 1 - i` goto calls. -/
theorem gotoAttempts_succeeds (o : Oracle) :
    ∀ (rem i K : Nat), i ≤ K → K < i + rem →
      (∀ j, i ≤ j → j < K → attemptOk o j = false) → attemptOk o K = true →
      gotoAttempts o i rem = (true, K + 1 - i) := by
  intro rem
  induction rem with
  | zero => intro i K h1 h2 _ _; omega
  | succ n ih =>
    intro i K h1 h2 h3 h4
    by_cases hik : i = K
    · subst hik
      simp [gotoAttempts, h4]
    · have hi : attemptOk o i = false := h3 i (le_refl i) (by omega)
      have hr := ih (i + 1) K (by omega) (by omega)
        (fun j hj1 hj2 => h3 j (by omega) hj2) h4
      simp [gotoAttempts, hi, hr]
      omega

/-- `goto_with_retries` under a navigation that first succeeds at call `K`. -/
theorem goto_with_retries_succeeds (o : Oracle) (N K : Nat) (h1 : 1 ≤ K)
    (h2 : K ≤ N) (h3 : ∀ j, 1 ≤ j → j < K → attemptOk o j = false)
    (h4 : attemptOk o K = true) :
    goto_with_retries o N = (true, K) := by
  have h := gotoAttempts_succeeds o N 1 K h1 (by omega) h3 h4
  rw [goto_with_retries, h, Nat.add_sub_cancel]

/-- `goto_with_retries` under a navigation that always fails. -/
theorem goto_with_retries_all_fail (o : Oracle) (N : Nat)
    (h : ∀ j, attemptOk o j = false) :
    goto_with_retries o N = (false, N) :=
  gotoAttempts_all_fail o N 1 (fun j _ _ => h j)

/-- One immediately successful attempt ends the retry loop after one call. -/
theorem goto_with_retries_first (o : Oracle) (h : attemptOk o 1 = true) :
    goto_with_retries o 3 = (true, 1) := by
  rw [goto_with_retries]
  simp [gotoAttempts, h]

/-! ### Lemmas about the selector fallback loop -/

/-- A scan over selectors none of which matches saves nothing. -/
theorem selector_scan_no_match (o : Oracle) (L : List Nat)
    (h : ∀ j, o.query j = some false) :
    selector_scan o L = ⟨false, none, 0⟩ := by
  induction L with
  | nil => rfl
  | cons j rest ih => simp [selector_scan, h j, ih]

/-! ### Claim C1 -/

/-- Claim C1, counterexample: on the run where every retry attempt and the
final fallback navigation raise, the exception escapes `capture_heatmap`
before its last statement, so `browser.close` is not reached. -/
theorem c1_counterexample :
    oracleAllFail.fallbackGotoOk = false ∧
    (capture_heatmap oracleAllFail).ok = false ∧
    (capture_heatmap oracleAllFail).browserClosed = false :=
  ⟨rfl, rfl, rfl⟩

/-- Claim C1, amended: `browser.close` is reached exactly on the runs where
no exception escapes `capture_heatmap`; when the final fallback navigation or
the full-page screenshot raises, the close call (the last statement of the
body, not guarded by any finally) is skipped, and resource release is left to
the enclosing context manager teardown. -/
theorem c1_browser_close (o : Oracle) :
    (capture_heatmap o).browserClosed = true ↔ (capture_heatmap o).ok = true := by
  simp only [capture_heatmap]
  split
  · simp
  · split <;> simp

/-! ### Claim C2 -/

/-- Claim C2, counterexample: every goto reaches DOM-ready and every
network-idle wait times out; the claim predicts a success with a single
navigation call, but the loop treats the timeout as a failed attempt,
retries, and returns failure after three goto calls. -/
theorem c2_counterexample :
    oracleIdleTimeout.gotoOk 1 = true ∧ oracleIdleTimeout.idleOk 1 = false ∧
    goto_with_retries oracleIdleTimeout 3 = (false, 3) :=
  ⟨rfl, rfl, rfl⟩

/-- Claim C2, amended: a network-idle timeout raises inside the attempt's
`try` block and is handled like any navigation failure: it triggers backoff
and another attempt, and when it happens on every attempt the function
returns `False` after all `N` goto calls. -/
theorem c2_idle_timeout_retries (o : Oracle) (N : Nat)
    (h1 : ∀ i, o.gotoOk i = true) (h2 : ∀ i, o.idleOk i = false) :
    goto_with_retries o N = (false, N) :=
  goto_with_retries_all_fail o N (fun j => by simp [attemptOk, h1 j, h2 j])

/-- Witness for the amended C2 theorem at a concrete oracle. -/
theorem c2_witness : goto_with_retries oracleIdleTimeout 3 = (false, 3) :=
  c2_idle_timeout_retries oracleIdleTimeout 3 (fun _ => rfl) (fun _ => rfl)

/-! ### Claim C3 -/

/-- Claim C3: with max attempts `N`, a navigation failing its first `K - 1`
attempt bodies and succeeding on attempt `K ≤ N` makes the retry loop report
success after exactly `K` goto calls; an always-failing navigation makes it
report failure after exactly `N` goto calls (here at the caller's `N = 3`),
after which `capture_heatmap` performs exactly one final fallback
navigation call. -/
theorem c3_retry_counts (o o₂ : Oracle) (N K : Nat) (h1 : 1 ≤ K) (h2 : K ≤ N)
    (h3 : ∀ j, 1 ≤ j → j < K → attemptOk o j = false)
    (h4 : attemptOk o K = true)
    (h5 : ∀ j, attemptOk o₂ j = false) :
    goto_with_retries o N = (true, K) ∧
    goto_with_retries o₂ 3 = (false, 3) ∧
    (capture_heatmap o₂).gotoCalls = 3 ∧
    (capture_heatmap o₂).fallbackCalls = 1 := by
  have hg := goto_with_retries_all_fail o₂ 3 h5
  refine ⟨goto_with_retries_succeeds o N K h1 h2 h3 h4, hg, ?_, ?_⟩
  · simp only [capture_heatmap, hg]
    split
    · rfl
    · split <;> rfl
  · simp only [capture_heatmap, hg]
    split
    · rfl
    · split <;> rfl

/-- Witness for C3 at concrete oracles, with the first success on call 2. -/
theorem c3_witness :
    goto_with_retries oracleSecondTry 3 = (true, 2) ∧
    goto_with_retries oracleFallbackNav 3 = (false, 3) ∧
    (capture_heatmap oracleFallbackNav).gotoCalls = 3 ∧
    (capture_heatmap oracleFallbackNav).fallbackCalls = 1 :=
  c3_retry_counts oracleSecondTry oracleFallbackNav 3 2 (by decide) (by decide)
    (by intro j hj1 hj2; interval_cases j; rfl) rfl (fun _ => rfl)

/-! ### Claim C4 -/

/-- Claim C4, counterexample: the first map selector finds an element, its
element screenshot raises, yet `capture_heatmap` still succeeds — the bare
`except` of the selector loop swallows the raising screenshot call and the
chain falls through to the full-page screenshot, so a raising screenshot call
does not always propagate. -/
theorem c4_counterexample :
    oracleElemShotRaises.query 0 = some true ∧
    oracleElemShotRaises.elemShotOk 0 = false ∧
    (capture_heatmap oracleElemShotRaises).elemShotsRaised = 1 ∧
    (capture_heatmap oracleElemShotRaises).fullPageUsed = true ∧
    (capture_heatmap oracleElemShotRaises).ok = true :=
  ⟨rfl, rfl, rfl, rfl, rfl⟩

/-- Claim C4, amended: once navigation has succeeded, only the full-page
screenshot call raising is fatal: the capture fails exactly when the selector
loop saved nothing and the full-page screenshot raises.  A raising element
screenshot is swallowed by the per-selector handler and the chain falls
through to later selectors and ultimately the full-page screenshot. -/
theorem c4_fatal_screenshot (o : Oracle)
    (h : (goto_with_retries o 3).1 = true ∨ o.fallbackGotoOk = true) :
    (capture_heatmap o).ok = false ↔
      ((selector_scan o [0, 1, 2, 3]).saved = false ∧ o.fullShotOk = false) := by
  have h1 : (!(goto_with_retries o 3).1 && !o.fallbackGotoOk) = false := by
    rcases h with h | h <;> simp [h]
  cases hsv : (selector_scan o [0, 1, 2, 3]).saved <;>
    cases hf : o.fullShotOk <;>
      simp [capture_heatmap, h1, hsv, hf]

/-- Witness for the amended C4 theorem at a concrete oracle. -/
theorem c4_witness :
    (capture_heatmap oracleElemShotRaises).ok = false ↔
      ((selector_scan oracleElemShotRaises [0, 1, 2, 3]).saved = false ∧
        oracleElemShotRaises.fullShotOk = false) :=
  c4_fatal_screenshot oracleElemShotRaises (Or.inl rfl)

/-! ### Claim C5 -/

/-- Claim C5: with navigation succeeded, if element lookup matches only the
`n`-th selector of the ordered list (and its screenshot write succeeds), the
capture screenshots exactly that element and does not use the full page; if
no selector matches, the capture takes a full-page screenshot; and the
lookup-and-fallback selection itself never raises: with a working full-page
screenshot the capture succeeds whatever the queries and element screenshots
do. -/
theorem c5_selector_fallback_chain (o o₂ o₃ : Oracle) (n : Nat) (hn : n < 4)
    (hq : ∀ j, j < 4 → o.query j = some (decide (j = n)))
    (hshot : o.elemShotOk n = true)
    (hnav : attemptOk o 1 = true)
    (hq2 : ∀ j, o₂.query j = some false)
    (hnav2 : attemptOk o₂ 1 = true) (hfull2 : o₂.fullShotOk = true)
    (hnav3 : attemptOk o₃ 1 = true) (hfull3 : o₃.fullShotOk = true) :
    ((capture_heatmap o).capturedElement = some n ∧
      (capture_heatmap o).fullPageUsed = false) ∧
    ((capture_heatmap o₂).capturedElement = none ∧
      (capture_heatmap o₂).fullPageUsed = true ∧
      (capture_heatmap o₂).ok = true) ∧
    (capture_heatmap o₃).ok = true := by
  have hg := goto_with_retries_first o hnav
  have hg2 := goto_with_retries_first o₂ hnav2
  have hg3 := goto_with_retries_first o₃ hnav3
  have hscan : selector_scan o [0, 1, 2, 3] = ⟨true, some n, 0⟩ := by
    interval_cases n <;>
      simp [selector_scan, hq 0 (by omega), hq 1 (by omega), hq 2 (by omega),
        hq 3 (by omega), hshot]
  have hscan2 : selector_scan o₂ [0, 1, 2, 3] = ⟨false, none, 0⟩ :=
    selector_scan_no_match o₂ _ hq2
  refine ⟨?_, ?_, ?_⟩
  · constructor <;> simp [capture_heatmap, hg, hscan]
  · refine ⟨?_, ?_, ?_⟩ <;> simp [capture_heatmap, hg2, hscan2, hfull2]
  · simp [capture_heatmap, hg3, hfull3]

/-- Witness for C5 with the third selector (index 2) as the only match. -/
theorem c5_witness :
    ((capture_heatmap oracleThirdSelector).capturedElement = some 2 ∧
      (capture_heatmap oracleThirdSelector).fullPageUsed = false) ∧
    ((capture_heatmap oracleNoMatch).capturedElement = none ∧
      (capture_heatmap oracleNoMatch).fullPageUsed = true ∧
      (capture_heatmap oracleNoMatch).ok = true) ∧
    (capture_heatmap oracleNoMatch).ok = true :=
  c5_selector_fallback_chain oracleThirdSelector oracleNoMatch oracleNoMatch 2
    (by decide) (by intro j hj; interval_cases j <;> rfl) rfl rfl
    (fun _ => rfl) rfl rfl rfl rfl

/-! ### Claim C6 -/

/-- Claim C6: a data row with fewer than nine columns makes
`read_google_sheet` raise the data-malformed `ValueError`, and `main` then
performs no formatting work and no capture work. -/
theorem c6_short_row (hdr row : List String) (rest : List (List String))
    (o : Oracle) (h : row.length < 9) :
    read_google_sheet (hdr :: row :: rest) = .error (.valueErr row.length row) ∧
    (main_run (hdr :: row :: rest) o).formatted = false ∧
    (main_run (hdr :: row :: rest) o).captured = false := by
  have hr : read_google_sheet (hdr :: row :: rest) =
      .error (.valueErr row.length row) := by
    simp [read_google_sheet, h]
  refine ⟨hr, ?_, ?_⟩ <;> simp [main_run, hr]

/-- Witness for C6 on a concrete eight-column row. -/
theorem c6_witness :
    read_google_sheet [["h"], ["a", "b", "c", "d", "e", "f", "g", "h"]] =
      .error (.valueErr 8 ["a", "b", "c", "d", "e", "f", "g", "h"]) ∧
    (main_run [["h"], ["a", "b", "c", "d", "e", "f", "g", "h"]]
      oracleAllFail).formatted = false ∧
    (main_run [["h"], ["a", "b", "c", "d", "e", "f", "g", "h"]]
      oracleAllFail).captured = false :=
  c6_short_row ["h"] ["a", "b", "c", "d", "e", "f", "g", "h"] [] oracleAllFail
    (by decide)

/-! ### Claim C7 -/

set_option maxRecDepth 40000 in
/-- Claim C7: parsing the end-to-end sample row and formatting it yields the
fixed message: header line, separator rule, then the eight metric lines in
order with percent signs appended, the USD/CAD value passed through (the
USD/CAD handling is modelled from the spec because the source literal is
corrupted; see `usdcad_field`). -/
theorem c7_end_to_end :
    read_google_sheet [["Date"], rowC7] = .ok snapC7 ∧
    format_slack_message snapC7 =
      "*Date: 2024-06-01 Market*\n───────────────────────────\n:us: S&P 500: +0.5%\n:us: Nasdaq: +1.2%\n:flag-ca: TSX Comp: -0.3%\n:seven: Magnificent7: +2.0%\n:bitcoin: Bitcoin: +3.1%\n:ethereum: Ethereum: -1.0%\n:chart_with_upwards_trend: USD/CAD: 1.36\n:gold_ingot: Gold: +0.8%" :=
  ⟨rfl, rfl⟩

/-! ### Claim C8 -/

/-- Claim C8, counterexample: field values are arbitrary strings, and a
percent-style value that already contains a percent sign mid-string is
passed through stripped, so its metric line ends in the original trailing
character rather than in a percent sign. -/
theorem c8_counterexample :
    snapPct.sp500 = "%a" ∧
    (format_lines snapPct).getD 2 "" = ":us: S&P 500: %a" ∧
    ((format_lines snapPct).getD 2 "").data.getLast? = some 'a' :=
  ⟨rfl, rfl, rfl⟩

/-- A metric line whose value is percent-free ends in a percent sign. -/
theorem line_getLast_pct (lab v : String) (h : v.data.contains '%' = false) :
    (lab ++ fmt_pct v).data.getLast? = some '%' := by
  rw [String.data_append]
  have hlast := fmt_pct_getLast_pct v h
  have hne : (fmt_pct v).data ≠ [] := by
    intro hnil
    rw [hnil] at hlast
    cases hlast
  rw [List.getLast?_append_of_ne_nil _ hne]
  exact hlast

/-- Claim C8, amended: the formatter always builds exactly the ten fixed
lines in order (header, rule, eight metric lines with their fixed labels);
each percent-style metric line ends in a percent sign provided its field
value does not already contain one (a value already containing a percent
sign is only stripped, as the counterexample shows), and the currency-pair
line carries the value itself. -/
theorem c8_fixed_layout (d : MarketSnapshot)
    (h1 : d.sp500.data.contains '%' = false)
    (h2 : d.nasdaq.data.contains '%' = false)
    (h3 : d.tsx.data.contains '%' = false)
    (h4 : d.mags.data.contains '%' = false)
    (h5 : d.btc.data.contains '%' = false)
    (h6 : d.eth.data.contains '%' = false)
    (h7 : d.gold.data.contains '%' = false) :
    (format_lines d).length = 10 ∧
    ((format_lines d).getD 2 "").data.getLast? = some '%' ∧
    ((format_lines d).getD 3 "").data.getLast? = some '%' ∧
    ((format_lines d).getD 4 "").data.getLast? = some '%' ∧
    ((format_lines d).getD 5 "").data.getLast? = some '%' ∧
    ((format_lines d).getD 6 "").data.getLast? = some '%' ∧
    ((format_lines d).getD 7 "").data.getLast? = some '%' ∧
    ((format_lines d).getD 9 "").data.getLast? = some '%' ∧
    (format_lines d).getD 8 "" = ":chart_with_upwards_trend: USD/CAD: " ++ d.usdcad := by
  refine ⟨rfl, ?_, ?_, ?_, ?_, ?_, ?_, ?_, rfl⟩
  · exact line_getLast_pct ":us: S&P 500: " d.sp500 h1
  · exact line_getLast_pct ":us: Nasdaq: " d.nasdaq h2
  · exact line_getLast_pct ":flag-ca: TSX Comp: " d.tsx h3
  · exact line_getLast_pct ":seven: Magnificent7: " d.mags h4
  · exact line_getLast_pct ":bitcoin: Bitcoin: " d.btc h5
  · exact line_getLast_pct ":ethereum: Ethereum: " d.eth h6
  · exact line_getLast_pct ":gold_ingot: Gold: " d.gold h7

/-- Witness for the amended C8 theorem at the sample snapshot. -/
theorem c8_witness :
    (format_lines snapC7).length = 10 ∧
    ((format_lines snapC7).getD 2 "").data.getLast? = some '%' ∧
    ((format_lines snapC7).getD 3 "").data.getLast? = some '%' ∧
    ((format_lines snapC7).getD 4 "").data.getLast? = some '%' ∧
    ((format_lines snapC7).getD 5 "").data.getLast? = some '%' ∧
    ((format_lines snapC7).getD 6 "").data.getLast? = some '%' ∧
    ((format_lines snapC7).getD 7 "").data.getLast? = some '%' ∧
    ((format_lines snapC7).getD 9 "").data.getLast? = some '%' ∧
    (format_lines snapC7).getD 8 "" =
      ":chart_with_upwards_trend: USD/CAD: " ++ snapC7.usdcad :=
  c8_fixed_layout snapC7 rfl rfl rfl rfl rfl rfl rfl

/-! ### Claim C9 -/

/-- Claim C9: when the dated artifact was written, a failing latest-copy is
swallowed — the capture still succeeds and the run still reports overall
success; when the dated artifact was never written, the capture fails (the
error propagates). -/
theorem c9_latest_copy (o o₂ : Oracle) (rows : List (List String))
    (d : MarketSnapshot)
    (h1 : (capture_heatmap o).datedWritten = true) (h2 : o.copyOk = false)
    (h3 : (capture_heatmap o₂).datedWritten = false)
    (h4 : read_google_sheet rows = .ok d) :
    ((capture_heatmap o).ok = true ∧ (capture_heatmap o).latestCopied = false ∧
      (main_run rows o).ok = true) ∧
    (capture_heatmap o₂).ok = false := by
  have hb1 : (capture_heatmap o).ok = true ∧
      (capture_heatmap o).latestCopied = o.copyOk := by
    revert h1
    simp only [capture_heatmap]
    split
    · intro hd; simp at hd
    · split
      · intro hd; simp at hd
      · intro _; exact ⟨rfl, rfl⟩
  have hmain : (main_run rows o).ok = true := by
    simp [main_run, h4, hb1.1]
  have hko : (capture_heatmap o₂).ok = false := by
    revert h3
    simp only [capture_heatmap]
    split
    · intro _; rfl
    · split
      · intro _; rfl
      · intro hd; simp at hd
  exact ⟨⟨hb1.1, by rw [hb1.2, h2], hmain⟩, hko⟩

/-- Witness for C9: a run whose latest-copy raises but still succeeds, and a
run whose dated artifact is never written and fails. -/
theorem c9_witness :
    ((capture_heatmap oracleCopyFails).ok = true ∧
      (capture_heatmap oracleCopyFails).latestCopied = false ∧
      (main_run [["Date"], rowC7] oracleCopyFails).ok = true) ∧
    (capture_heatmap oracleFullShotRaises).ok = false :=
  c9_latest_copy oracleCopyFails oracleFullShotRaises [["Date"], rowC7] snapC7
    rfl rfl rfl rfl

/-! ### Claim C10 -/

/-- Claim C10: `fmt_pct` always yields a value containing a percent sign and
is idempotent, so applying the formatter to an already formatted value never
appends a second percent sign. -/
theorem c10_fmt_pct_idempotent (v : String) :
    (fmt_pct v).data.contains '%' = true ∧ fmt_pct (fmt_pct v) = fmt_pct v :=
  ⟨fmt_pct_contains_pct v, fmt_pct_idem v⟩
